import Mathlib

/-!
# Verification of `panda/models/dataset.py`

A shallow embedding of the PANDA `Dataset` model: column-name derivation
(`_generate_typed_column_names`), the database-backed locking protocol
(`lock` / `unlock`), the lock-guarded lifecycle operations (`import_data`,
`reindex_data`, `export_data`), the Solr-backed row operations (`add_row`,
`add_many_rows`, `delete_row`, `delete_all_rows`, `_count_rows`), and the
deletion flow (`delete` plus the `post_delete` receiver `on_dataset_delete`).

Conventions of the embedding:
* Timestamps (`datetime.now()` / `datetime.utcnow()`) are opaque tokens,
  modelled as `Nat` parameters supplied by the caller.
* Users, uploads and task-status records are identified by `Nat` ids.
* Python's `None` becomes `Option.none`; Python truthiness of a list-valued
  field (`if self.column_schema:`) is modelled explicitly (both `None` and
  the empty list are falsy).
* Python's `'%i' % n` / `'%s' % n` decimal rendering is modelled by
  `pyNatRepr` / `pyIntRepr` below.
* Fallible external collaborators (the relational store's `save`,
  `TaskStatus.objects.create`, Celery's `apply_async`) are modelled by
  `Except`-valued oracle fields, so theorems can quantify over every
  possible failure of a collaborator call.
-/

namespace Panda

/-- Decimal digits of a natural number, most significant first, with
explicit recursion fuel so that the definition reduces by `rfl`
(`fuel = n + 1` always suffices, see `decVal_pyNatDigits`). -/
def pyNatDigitsAux : Nat → Nat → List Char
  | 0, _ => []
  | fuel + 1, n =>
    if n < 10 then [Nat.digitChar n]
    else pyNatDigitsAux fuel (n / 10) ++ [Nat.digitChar (n % 10)]

/-- Decimal digits of a natural number, most significant first, as Python's
`str`/`'%i'` renders it. -/
def pyNatDigits (n : Nat) : List Char :=
  pyNatDigitsAux (n + 1) n

/-- Python's decimal rendering of a natural number. -/
def pyNatRepr (n : Nat) : String :=
  ⟨pyNatDigits n⟩

/-- Python's decimal rendering of an integer (`'%i' % i`). -/
def pyIntRepr (i : Int) : String :=
  if i < 0 then "-" ++ pyNatRepr i.natAbs else pyNatRepr i.natAbs

/-- Value of a digit string, used only to invert `pyNatDigits`. -/
def decVal (l : List Char) : Nat :=
  l.foldl (fun a c => 10 * a + (c.toNat - 48)) 0

theorem decVal_from (init : Nat) (l : List Char) :
    l.foldl (fun a c => 10 * a + (c.toNat - 48)) init =
      init * 10 ^ l.length + decVal l := by
  induction l generalizing init with
  | nil => simp [decVal]
  | cons c rest ih =>
    simp only [List.foldl_cons, decVal, pow_succ, List.length_cons]
    rw [ih, ih (10 * 0 + (c.toNat - 48))]
    ring

theorem decVal_append (l₁ l₂ : List Char) :
    decVal (l₁ ++ l₂) = decVal l₁ * 10 ^ l₂.length + decVal l₂ := by
  simp only [decVal, List.foldl_append]
  rw [decVal_from (List.foldl _ 0 l₁) l₂]
  rfl

theorem digitChar_val (d : Nat) (h : d < 10) :
    (Nat.digitChar d).toNat - 48 = d := by
  interval_cases d <;> rfl

theorem decVal_pyNatDigitsAux :
    ∀ fuel n, n < 10 ^ fuel → decVal (pyNatDigitsAux fuel n) = n := by
  intro fuel
  induction fuel with
  | zero =>
    intro n hn
    have : n = 0 := by simpa using hn
    subst this
    rfl
  | succ fuel ih =>
    intro n hn
    by_cases h : n < 10
    · rw [pyNatDigitsAux, if_pos h]
      simpa [decVal] using digitChar_val n h
    · rw [pyNatDigitsAux, if_neg h]
      have hdiv : n / 10 < 10 ^ fuel := by
        rw [Nat.div_lt_iff_lt_mul (by omega)]
        calc n < 10 ^ (fuel + 1) := hn
        _ = 10 ^ fuel * 10 := by ring
      rw [decVal_append, ih (n / 10) hdiv]
      simp only [List.length_singleton, pow_one]
      have : decVal [Nat.digitChar (n % 10)] = n % 10 := by
        simpa [decVal] using digitChar_val (n % 10) (Nat.mod_lt _ (by omega))
      rw [this]
      omega

theorem decVal_pyNatDigits (n : Nat) : decVal (pyNatDigits n) = n := by
  rw [pyNatDigits]
  refine decVal_pyNatDigitsAux (n + 1) n ?_
  calc n < 10 ^ n := Nat.lt_pow_self (by omega) n
  _ ≤ 10 ^ (n + 1) := Nat.pow_le_pow_right (by omega) (by omega)

theorem pyNatRepr_injective : Function.Injective pyNatRepr := by
  intro a b h
  have hd : pyNatDigits a = pyNatDigits b := congrArg String.data h
  have := decVal_pyNatDigits a
  rw [hd, decVal_pyNatDigits b] at this
  omega

/-! ## Slug derivation (`_generate_typed_column_names`, lines 73–105)

The source normalizes a column name with
`unicodedata.normalize('NFKD', slug).encode('ascii', 'ignore')`, then
`re.sub('[^\w\s-]', '', slug).strip().lower()`, then
`re.sub('[-\s]+', '_', slug)`.  The `unicodedata`/`encode` step is a Python
library boundary; it is the identity on ASCII input and discards code points
with no ASCII decomposition, modelled here as a filter keeping ASCII code
points.  `\w` and `\s` are Python 2's non-unicode classes
(`[a-zA-Z0-9_]` and `[ \t\n\r\x0b\x0c]`). -/

/-- Python 2 `\s` on a byte string. -/
def isPySpace (c : Char) : Bool :=
  c = ' ' || c = '\t' || c = '\n' || c = '\r' || c = '\x0b' || c = '\x0c'

/-- Python 2 `\w` on a byte string. -/
def isPyWord (c : Char) : Bool :=
  ('a' ≤ c && c ≤ 'z') || ('A' ≤ c && c ≤ 'Z') || ('0' ≤ c && c ≤ '9') || c = '_'

/-- Python `str.strip()`: drop leading and trailing whitespace. -/
def pyStrip (l : List Char) : List Char :=
  ((l.dropWhile isPySpace).reverse.dropWhile isPySpace).reverse

/-- Model of `re.sub('[-\s]+', '_', s)`: collapse each maximal run of hyphens and
whitespace into a single underscore.  The boolean argument records whether
the previous character belonged to such a run. -/
def collapseRuns : Bool → List Char → List Char
  | _, [] => []
  | inRun, c :: rest =>
    if isPySpace c || c = '-' then
      if inRun then collapseRuns true rest
      else '_' :: collapseRuns true rest
    else c :: collapseRuns false rest

/-- The full slugification pipeline of lines 86–89. -/
def slugify (s : String) : String :=
  ⟨collapseRuns false
    ((((s.data.filter (fun c => c.toNat < 128)).filter
        (fun c => isPyWord c || isPySpace c || c = '-')).dropWhile isPySpace
      |>.reverse.dropWhile isPySpace |>.reverse).map Char.toLower)⟩

/-! ## Name de-duplication (lines 93–102)

`typed_column_names` is the list of `indexed_name`s assigned so far
(`None` entries for non-indexed columns).  When the candidate collides,
the source appends `2, 3, …` until the suffixed name no longer appears.
The `while` loop always terminates within `prior.length + 1` probes
(pigeonhole over the distinct candidate strings), so the embedding runs
it with exactly that much fuel; `dedupFrom_not_mem` and
`exists_free_suffix` below prove the fuel is never exhausted. -/

/-- The `while test_name in typed_column_names` loop, probing suffixes
`n, n+1, …` with the given fuel. -/
def dedupFrom (name : String) (prior : List (Option String)) :
    Nat → Nat → String
  | 0, n => name ++ pyNatRepr n
  | fuel + 1, n =>
    if some (name ++ pyNatRepr n) ∈ prior then dedupFrom name prior fuel (n + 1)
    else name ++ pyNatRepr n

/-- Lines 94–102: keep `name` if unused, otherwise append the first free
numeric suffix starting at `2`. -/
def dedupName (name : String) (prior : List (Option String)) : String :=
  if some name ∈ prior then dedupFrom name prior (prior.length + 1) 2
  else name

theorem dedupFrom_not_mem (name : String) (prior : List (Option String)) :
    ∀ fuel n, (∃ k, n ≤ k ∧ k < n + fuel ∧ some (name ++ pyNatRepr k) ∉ prior) →
      some (dedupFrom name prior fuel n) ∉ prior := by
  intro fuel
  induction fuel with
  | zero => intro n ⟨k, hk1, hk2, _⟩; omega
  | succ fuel ih =>
    intro n ⟨k, hk1, hk2, hk3⟩
    by_cases hmem : some (name ++ pyNatRepr n) ∈ prior
    · rw [dedupFrom, if_pos hmem]
      apply ih (n + 1)
      refine ⟨k, ?_, by omega, hk3⟩
      rcases Nat.eq_or_lt_of_le hk1 with rfl | h
      · exact absurd hmem hk3
      · omega
    · rw [dedupFrom, if_neg hmem]
      exact hmem

theorem exists_free_suffix (name : String) (prior : List (Option String))
    (n : Nat) :
    ∃ k, n ≤ k ∧ k < n + (prior.length + 1) ∧
      some (name ++ pyNatRepr k) ∉ prior := by
  by_contra hcon
  push_neg at hcon
  have hsub : (List.range' n (prior.length + 1)).map
      (fun k => some (name ++ pyNatRepr k)) ⊆ prior := by
    intro x hx
    rcases List.mem_map.mp hx with ⟨k, hk, rfl⟩
    rw [List.mem_range'] at hk
    rcases hk with ⟨i, hi, rfl⟩
    simpa using hcon (n + i) (by omega) (by omega)
  have hinj : Function.Injective (fun k : Nat => some (name ++ pyNatRepr k)) := by
    intro a b hab
    have h1 : name ++ pyNatRepr a = name ++ pyNatRepr b := by
      simpa using hab
    have h2 : (name ++ pyNatRepr a).data = (name ++ pyNatRepr b).data :=
      congrArg String.data h1
    simp only [String.data_append] at h2
    have h3 : (pyNatRepr a).data = (pyNatRepr b).data :=
      List.append_cancel_left h2
    exact pyNatRepr_injective (by cases pa : pyNatRepr a <;> cases pb : pyNatRepr b <;>
      simp_all)
  have hnd : ((List.range' n (prior.length + 1)).map
      (fun k => some (name ++ pyNatRepr k))).Nodup :=
    (List.nodup_range' _ _).map hinj
  have hlen := (hnd.subperm hsub).length_le
  simp at hlen

theorem dedupName_not_mem (name : String) (prior : List (Option String)) :
    some (dedupName name prior) ∉ prior := by
  rw [dedupName]
  by_cases h : some name ∈ prior
  · rw [if_pos h]
    exact dedupFrom_not_mem name prior _ 2 (exists_free_suffix name prior 2)
  · rw [if_neg h]
    exact h

/-- The function `dedupName` either keeps the candidate or appends a numeric suffix `≥ 2`. -/
theorem dedupName_shape (name : String) (prior : List (Option String)) :
    dedupName name prior = name ∨
      ∃ k, 2 ≤ k ∧ dedupName name prior = name ++ pyNatRepr k := by
  rw [dedupName]
  by_cases h : some name ∈ prior
  · rw [if_pos h]
    right
    have : ∀ fuel n, 2 ≤ n →
        ∃ k, 2 ≤ k ∧ dedupFrom name prior fuel n = name ++ pyNatRepr k := by
      intro fuel
      induction fuel with
      | zero => intro n hn; exact ⟨n, hn, rfl⟩
      | succ fuel ih =>
        intro n hn
        rw [dedupFrom]
        by_cases hmem : some (name ++ pyNatRepr n) ∈ prior
        · rw [if_pos hmem]; exact ih (n + 1) (by omega)
        · rw [if_neg hmem]; exact ⟨n, hn, rfl⟩
    exact this _ 2 le_rfl
  · rw [if_neg h]
    left; rfl

/-! ## The data model -/

/-- One row of raw values, aligned to `column_schema` order. -/
abbrev Row := List String

/-- One entry of `column_schema` (the dict literal of lines 218–225). -/
structure ColumnDescriptor where
  name : String
  type : String
  indexed : Bool
  indexed_name : Option String
  min : Option String
  max : Option String
deriving Repr, DecidableEq

/-- Method `_generate_typed_column_names` (lines 73–105): walk the schema in order,
assigning `indexed_name := None` to non-indexed columns and a de-duplicated
`column_<type>_<slug>` name to indexed ones.  `tcns` is the accumulated
`typed_column_names` list. -/
def generateAux : List (Option String) → List ColumnDescriptor →
    List ColumnDescriptor
  | _, [] => []
  | tcns, c :: rest =>
    if c.indexed then
      let nm := dedupName ("column_" ++ c.type ++ "_" ++ slugify c.name) tcns
      { c with indexed_name := some nm } :: generateAux (tcns ++ [some nm]) rest
    else
      { c with indexed_name := none } :: generateAux (tcns ++ [none]) rest

/-- The base (pre-deduplication) Solr field name of line 91. -/
def baseName (c : ColumnDescriptor) : String :=
  "column_" ++ c.type ++ "_" ++ slugify c.name

/-- Method `Dataset._generate_typed_column_names` as a function on the schema. -/
def generate_typed_column_names (schema : List ColumnDescriptor) :
    List ColumnDescriptor :=
  generateAux [] schema

theorem generateAux_nil (tcns : List (Option String)) :
    generateAux tcns [] = [] := by
  rw [generateAux]

/-- The head and accumulator step of one pass of the loop. -/
theorem generateAux_cons (tcns : List (Option String)) (c : ColumnDescriptor)
    (rest : List ColumnDescriptor) :
    generateAux tcns (c :: rest) =
      { c with indexed_name :=
          if c.indexed then some (dedupName (baseName c) tcns) else none } ::
        generateAux
          (tcns ++ [if c.indexed then some (dedupName (baseName c) tcns)
                    else none]) rest := by
  rw [generateAux]
  by_cases h : c.indexed
  · simp [h, baseName]
  · simp [h]

theorem generateAux_length (tcns : List (Option String))
    (cs : List ColumnDescriptor) :
    (generateAux tcns cs).length = cs.length := by
  induction cs generalizing tcns with
  | nil => rw [generateAux_nil]
  | cons c rest ih => rw [generateAux_cons]; simp [ih]

/-- The names assigned by the pass. -/
def assignedNames (l : List ColumnDescriptor) : List (Option String) :=
  l.map (·.indexed_name)

theorem generateAux_get? (cs : List ColumnDescriptor) :
    ∀ (tcns : List (Option String)) (i : Nat) (c0 : ColumnDescriptor),
      cs[i]? = some c0 →
      (generateAux tcns cs)[i]? = some
        { c0 with indexed_name :=
            if c0.indexed then
              some (dedupName (baseName c0)
                (tcns ++ assignedNames ((generateAux tcns cs).take i)))
            else none } := by
  induction cs with
  | nil => intro tcns i c0 h; simp at h
  | cons c rest ih =>
    intro tcns i c0 h
    match i with
    | 0 =>
      simp only [List.getElem?_cons_zero, Option.some.injEq] at h
      subst h
      rw [generateAux_cons]
      simp [assignedNames]
    | Nat.succ j =>
      simp only [List.getElem?_cons_succ] at h
      rw [generateAux_cons]
      simp only [List.getElem?_cons_succ, List.take_succ_cons, assignedNames,
        List.map_cons]
      rw [ih _ j c0 h, List.append_cons tcns]
      simp [assignedNames]

theorem generateAux_nodup (cs : List ColumnDescriptor) :
    ∀ tcns : List (Option String), (tcns.filterMap id).Nodup →
      (((tcns ++ assignedNames (generateAux tcns cs)).filterMap id)).Nodup := by
  induction cs with
  | nil => intro tcns h; simpa [generateAux_nil, assignedNames] using h
  | cons c rest ih =>
    intro tcns h
    rw [generateAux_cons]
    set x : Option String :=
      if c.indexed then some (dedupName (baseName c) tcns) else none with hx
    have h' : ((tcns ++ [x]).filterMap id).Nodup := by
      by_cases hc : c.indexed
      · have hxv : x = some (dedupName (baseName c) tcns) := by
          rw [hx, if_pos hc]
        set nm := dedupName (baseName c) tcns with hnm
        have hfresh : nm ∉ tcns.filterMap id := by
          intro hmem
          rcases List.mem_filterMap.mp hmem with ⟨a, ha, ha2⟩
          cases a with
          | none => exact Option.noConfusion ha2
          | some b =>
            have hb : b = nm := by simpa using ha2
            subst hb
            exact dedupName_not_mem (baseName c) tcns ha
        rw [hxv, List.filterMap_append]
        simp only [List.filterMap_cons, List.filterMap_nil, id]
        rw [List.nodup_append]
        refine ⟨h, List.nodup_singleton nm, ?_⟩
        intro a ha hb
        have hb' : a = nm := by simpa using hb
        subst hb'
        exact hfresh ha
      · have hxv : x = none := by rw [hx, if_neg hc]
        rw [hxv, List.filterMap_append]
        simpa using h
    have := ih (tcns ++ [x]) h'
    simp only [assignedNames, List.map_cons] at this ⊢
    rw [List.append_cons tcns]
    exact this

/-- The persisted `Dataset` record (lines 20–55).  Timestamps are opaque
`Nat` tokens; users, uploads and task-status records are `Nat` ids. -/
structure Dataset where
  slug : String
  name : String
  description : String
  initial_upload : Option Nat
  column_schema : Option (List ColumnDescriptor)
  sample_data : Option (List Row)
  row_count : Option Int
  current_task : Option Nat
  creation_date : Option Nat
  creator : Nat
  last_modified : Option Nat
  last_modification : Option String
  last_modified_by : Option Nat
  locked : Bool
  locked_at : Option Nat
deriving Repr, DecidableEq

/-- The errors the module raises.  `DatasetLockedError` is one Python class;
`DataImportError` carries a message, embedded here as one constructor per
message of lines 202, 208 and 213.  `typeError` and `indexError` are the
built-in exceptions Python raises on the spot (`'%i' % None`,
out-of-range list assignment, iterating `None`).  `external n` stands for
an arbitrary error escaping a collaborator call (store `save`,
`TaskStatus.objects.create`, `apply_async`). -/
inductive PandaError where
  | datasetLocked
  | alreadyImported
  | unsupportedFileType
  | schemaMismatch
  | typeError (msg : String)
  | indexError (msg : String)
  | external (n : Nat)
deriving Repr, DecidableEq

/-- The lock-relevant slice of the persisted record, as another process
would read it from the database. -/
structure LockView where
  locked : Bool
  locked_at : Option Nat
deriving Repr, DecidableEq

/-! ## `Dataset.lock` (lines 107–134)

The method does two reads and one write against the database.  `before` is
the record returned by the first re-read (line 112), `fresh` is the token
`datetime.now()` of line 120, and `reread` is the record returned by the
second re-read (line 128) — in a race, `reread` may differ from the record
written at line 125.  The result is the raised error (if any) together with
the list of records written to the store, in order. -/
def Dataset.lock (before : LockView) (fresh : Nat) (reread : LockView) :
    Except PandaError Unit × List LockView :=
  if before.locked then
    (.error .datasetLocked, [])
  else
    let written : LockView := { locked := true, locked_at := some fresh }
    if reread.locked_at = some fresh then (.ok (), [written])
    else (.error .datasetLocked, [written])

/-! ## `Dataset.unlock` (lines 136–143)

The source sets `self.locked = False` and `self.lock_id = None`, then saves.
`lock_id` is not a field of the model (the token field is `locked_at`), so
the assignment creates a stray instance attribute and the persisted
`locked_at` is left unchanged. -/
def Dataset.unlock (d : Dataset) : Dataset :=
  { d with locked := false }

/-! ## Lock-guarded lifecycle operations (lines 194–295)

Each of `import_data`, `reindex_data` and `export_data` runs `self.lock()`
and then a `try: … except: self.unlock(); raise` block.  The embedding runs
the lock protocol sequentially (the second re-read returns the record just
written, so acquisition on an unlocked record succeeds), threads the
in-memory record through the body, and on a body error returns the raised
error together with the record persisted by `unlock()`'s save (which writes
every in-memory mutation made so far, plus `locked = False`). -/

/-- What the upload resolver exposes (`DataUpload` plus
`get_import_task_type_for_upload`): `task_type` is the name of the
resolved import task, or `none` when the format is unsupported. -/
structure Upload where
  id : Nat
  imported : Bool
  columns : List String
  guessed_types : List String
  sample_data : List Row
  task_type : Option String
deriving Repr, DecidableEq

/-- Outcomes of the fallible collaborator calls inside one guarded body:
`TaskStatus.objects.create` (yields a task id), `self.save()`, and
`apply_async`.  An `.error n` means the call raised, with `n` identifying
the underlying exception. -/
structure TaskEnv where
  createTask : Except Nat Nat
  save : Except Nat Unit
  applyAsync : Except Nat Unit
deriving Repr

/-- Python truthiness of the `column_schema` field: `None` and `[]` are
falsy (line 210 `if self.column_schema:`). -/
def schemaTruthy (d : Dataset) : Bool :=
  match d.column_schema with
  | some (_ :: _) => true
  | _ => false

/-- The schema built from an upload on a schema-less first import
(lines 215–225): every column starts non-indexed with no `indexed_name`. -/
def initialSchema (cols types : List String) : List ColumnDescriptor :=
  List.zipWith
    (fun c t => { name := c, type := t, indexed := false,
                  indexed_name := none, min := none, max := none })
    cols types

/-- The common tail of the three guarded bodies: create a `TaskStatus`,
attach it as `current_task`, save, dispatch.  On failure the error carries
the in-memory record at the point of the raise. -/
def taskDispatch (d : Dataset) (env : TaskEnv) :
    Except (PandaError × Dataset) Dataset :=
  match env.createTask with
  | .error n => .error (.external n, d)
  | .ok tid =>
    let d1 := { d with current_task := some tid }
    match env.save with
    | .error n => .error (.external n, d1)
    | .ok () =>
      match env.applyAsync with
      | .error n => .error (.external n, d1)
      | .ok () => .ok d1

/-- The `try:` body of `import_data` (lines 201–241). -/
def importBody (d : Dataset) (u : Upload) (env : TaskEnv) :
    Except (PandaError × Dataset) Dataset :=
  if u.imported then .error (.alreadyImported, d)
  else if u.task_type = none then .error (.unsupportedFileType, d)
  else
    match d.column_schema with
    | some (c0 :: cs) =>
      if u.columns ≠ (c0 :: cs).map (·.name) then .error (.schemaMismatch, d)
      else importTail d u env
    | _ =>
      if u.guessed_types.length < u.columns.length then
        .error (.indexError "list index out of range",
          { d with column_schema := some (initialSchema u.columns u.guessed_types) })
      else
        importTail
          { d with column_schema := some (initialSchema u.columns u.guessed_types) }
          u env
where
  /-- Lines 227–241: sample data, initial upload, task creation, dispatch. -/
  importTail (d : Dataset) (u : Upload) (env : TaskEnv) :
      Except (PandaError × Dataset) Dataset :=
    let d1 := if d.sample_data = none then { d with sample_data := some u.sample_data }
              else d
    let d2 := if d1.initial_upload = none ∧ d1.row_count = none then
                { d1 with initial_upload := some u.id }
              else d1
    taskDispatch d2 env

/-- Method `Dataset.import_data` (lines 194–244).  `fresh` is the lock token.
Returns the raised error (if any) and the final persisted record. -/
def Dataset.import_data (d : Dataset) (fresh : Nat) (u : Upload)
    (env : TaskEnv) : Option PandaError × Dataset :=
  if d.locked then (some .datasetLocked, d)
  else
    match importBody { d with locked := true, locked_at := some fresh } u env with
    | .ok d2 => (none, d2)
    | .error (e, dm) => (some e, dm.unlock)

/-- Lines 253–255: `self.column_schema[i]['indexed'] = t` for each given
override, positionally. -/
def applyIndexed : List ColumnDescriptor → List Bool → List ColumnDescriptor
  | cs, [] => cs
  | [], _ => []
  | c :: cs, t :: ts => { c with indexed := t } :: applyIndexed cs ts

/-- Lines 257–259: `self.column_schema[i]['type'] = t`, positionally. -/
def applyTypes : List ColumnDescriptor → List String → List ColumnDescriptor
  | cs, [] => cs
  | [], _ => []
  | c :: cs, t :: ts => { c with type := t } :: applyTypes cs ts

/-- One positional-override pass (the two `for` loops): Python raises
`TypeError` when `column_schema` is `None` and a non-empty override list is
iterated over it, and `IndexError` when the override list is longer than
the schema (entries up to the schema length having already been written). -/
def applyOverride (d : Dataset) (upd : List ColumnDescriptor → List ColumnDescriptor)
    (n : Nat) : Except (PandaError × Dataset) Dataset :=
  if n = 0 then .ok d
  else
    match d.column_schema with
    | none => .error (.typeError "NoneType object does not support item assignment", d)
    | some cs =>
      let d1 := { d with column_schema := some (upd cs) }
      if cs.length < n then
        .error (.indexError "list assignment index out of range", d1)
      else .ok d1

/-- The `try:` body of `reindex_data` (lines 252–271). -/
def reindexBody (d : Dataset) (tc : List Bool) (ct : List String)
    (env : TaskEnv) : Except (PandaError × Dataset) Dataset :=
  match applyOverride d (fun cs => applyIndexed cs tc) tc.length with
  | .error e => .error e
  | .ok d1 =>
    match applyOverride d1 (fun cs => applyTypes cs ct) ct.length with
    | .error e => .error e
    | .ok d2 =>
      match d2.column_schema with
      | none => .error (.typeError "NoneType object is not iterable", d2)
      | some cs =>
        taskDispatch { d2 with column_schema := some (generate_typed_column_names cs) } env

/-- Method `Dataset.reindex_data` (lines 246–274). -/
def Dataset.reindex_data (d : Dataset) (fresh : Nat) (tc : List Bool)
    (ct : List String) (env : TaskEnv) : Option PandaError × Dataset :=
  if d.locked then (some .datasetLocked, d)
  else
    match reindexBody { d with locked := true, locked_at := some fresh } tc ct env with
    | .ok d2 => (none, d2)
    | .error (e, dm) => (some e, dm.unlock)

/-- Method `Dataset.export_data` (lines 276–295): the body is just the task
creation/dispatch tail. -/
def Dataset.export_data (d : Dataset) (fresh : Nat) (env : TaskEnv) :
    Option PandaError × Dataset :=
  if d.locked then (some .datasetLocked, d)
  else
    match taskDispatch { d with locked := true, locked_at := some fresh } env with
    | .ok d2 => (none, d2)
    | .error (e, dm) => (some e, dm.unlock)

/-! ## Row operations against the Solr data core (lines 297–396)

Every row document is keyed by `dataset_slug` + `external_id`, and all the
operations of one `Dataset` filter on its own slug, so the store is
modelled per dataset as an association list from `external_id` to row
data.  `solr.add` is an idempotent overwrite by key; `_count_rows` is the
`numFound` of the slug-scoped query, i.e. the number of stored keys.
`make_data_row` (in `panda.utils`, outside this module) builds the
document from the dataset slug, the row data and the external id; its
relevant effect is captured by the `(external_id, data)` pair. -/

/-- A call made against the Solr collaborator, in the order issued. -/
inductive SolrCall where
  | add (core : String) (docCount : Nat) (commit : Bool)
  | del (core : String) (q : String) (commit : Bool)
  | query (core : String) (q : String)
deriving Repr, DecidableEq

/-- Names of the two Solr collections (`settings.SOLR_DATA_CORE`,
`settings.SOLR_DATASETS_CORE`). -/
def dataCore : String := "data"

def datasetsCore : String := "datasets"

/-- The row documents of one dataset, keyed by `external_id`. -/
structure RowStore where
  rows : List (String × Row)
deriving Repr, DecidableEq

/-- Idempotent overwrite by key: replace the stored document when the key
exists, append otherwise. -/
def RowStore.upsert (s : RowStore) (k : String) (v : Row) : RowStore :=
  if s.rows.any (fun p => p.1 = k) then
    ⟨s.rows.map (fun p => if p.1 = k then (k, v) else p)⟩
  else ⟨s.rows ++ [(k, v)]⟩

/-- Method `_count_rows` (lines 391–396): `numFound` of the slug-scoped query. -/
def RowStore.count (s : RowStore) : Int :=
  (s.rows.length : Int)

/-- Does `external_id` already key a document? -/
def RowStore.hasKey (s : RowStore) (k : String) : Bool :=
  s.rows.any (fun p => p.1 = k)

/-- The `sample_data` update of lines 316–320: Python truthiness resets `None`
to `[]`, then appends while fewer than five rows are stored. -/
def sampleAfterAdd (sample : Option (List Row)) (data : Row) : List Row :=
  let cur := match sample with
    | none => []
    | some l => l
  if cur.length < 5 then cur ++ [data] else cur

/-- Method `Dataset.add_row` (lines 308–330).  `external_id` is the document key
(`make_data_row` generates one when the caller passes `None`; the claims
only concern caller-supplied keys).  Returns the updated record, the
updated store, and the Solr calls issued. -/
def Dataset.add_row (d : Dataset) (s : RowStore) (user : Nat) (now : Nat)
    (data : Row) (external_id : String) :
    Dataset × RowStore × List SolrCall :=
  let s1 := s.upsert external_id data
  let added : Int := s1.count - (d.row_count.getD 0)
  let d1 := { d with
    sample_data := some (sampleAfterAdd d.sample_data data)
    row_count := some s1.count
    last_modified := some now
    last_modified_by := some user
    last_modification :=
      some ("1 row " ++ (if added ≠ 0 then "added" else "updated")) }
  (d1, s1, [.add dataCore 1 true, .query dataCore ("dataset_slug:" ++ d.slug)])

/-- The `sample_data` backfill of lines 342–347: extend with the first
`5 - len(sample_data)` rows of the batch. -/
def sampleAfterAddMany (sample : Option (List Row)) (batch : List (Row × String)) :
    List Row :=
  let cur := match sample with
    | none => []
    | some l => l
  if cur.length < 5 then cur ++ (batch.map (·.1)).take (5 - cur.length) else cur

/-- Method `Dataset.add_many_rows` (lines 332–365).  `batch` is the list of
`(data, external_id)` tuples, upserted in order by one `solr.add` call. -/
def Dataset.add_many_rows (d : Dataset) (s : RowStore) (user : Nat) (now : Nat)
    (batch : List (Row × String)) :
    Dataset × RowStore × List SolrCall :=
  let s1 := batch.foldl (fun acc p => acc.upsert p.2 p.1) s
  let added : Int := s1.count - (d.row_count.getD 0)
  let updated : Int := (batch.length : Int) - added
  let d1 := { d with
    sample_data := some (sampleAfterAddMany d.sample_data batch)
    row_count := some s1.count
    last_modified := some now
    last_modified_by := some user
    last_modification := some
      (if added ≠ 0 ∧ updated ≠ 0 then
        pyIntRepr added ++ " rows added and " ++ pyIntRepr updated ++ " updated"
      else if added ≠ 0 then pyIntRepr added ++ " rows added"
      else pyIntRepr updated ++ " rows updated") }
  (d1, s1, [.add dataCore batch.length true,
            .query dataCore ("dataset_slug:" ++ d.slug)])

/-- Method `Dataset.delete_row` (lines 367–377). -/
def Dataset.delete_row (d : Dataset) (s : RowStore) (user : Nat) (now : Nat)
    (external_id : String) : Dataset × RowStore × List SolrCall :=
  let s1 : RowStore := ⟨s.rows.filter (fun p => p.1 ≠ external_id)⟩
  let d1 := { d with
    row_count := some s1.count
    last_modified := some now
    last_modified_by := some user
    last_modification := some "1 row deleted" }
  (d1, s1,
    [.del dataCore ("dataset_slug:" ++ d.slug ++ " AND external_id:" ++ external_id) true,
     .query dataCore ("dataset_slug:" ++ d.slug)])

/-- Method `Dataset.delete_all_rows` (lines 379–389).  The slug-scoped delete is
issued first; then `'All %i rows deleted' % old_row_count` raises
`TypeError` when `row_count` is Python `None`, in which case no record is
saved (the first component carries the raised error, the second the
persisted record — unchanged on failure). -/
def Dataset.delete_all_rows (d : Dataset) (s : RowStore) (user : Nat)
    (now : Nat) :
    Option PandaError × Dataset × RowStore × List SolrCall :=
  let s1 : RowStore := ⟨[]⟩
  let calls := [SolrCall.del dataCore ("dataset_slug:" ++ d.slug) true]
  match d.row_count with
  | none =>
    (some (.typeError "%d format: a number is required, not NoneType"), d, s1, calls)
  | some n =>
    (none,
     { d with
        row_count := some 0
        last_modified := some now
        last_modification := some ("All " ++ pyIntRepr n ++ " rows deleted") },
     s1, calls)

/-! ## Deletion and the post-delete purge (lines 184–192 and 398–405)

`Dataset.delete` asks the current task to abort (if any) and deletes the
record; Django's `post_delete` signal then runs `on_dataset_delete`, which
dispatches a `PurgeDataTask` for the slug and deletes the catalog document.
The flow is modelled as the ordered list of outward effects. -/

/-- One outward effect of the deletion flow. -/
inductive DeleteEvent where
  | abortRequest (taskId : Nat)
  | recordDelete (slug : String)
  | purgeDataDispatch (slug : String)
  | catalogDelete (slug : String)
deriving Repr, DecidableEq

/-- The `post_delete` receiver `on_dataset_delete` (lines 398–405). -/
def on_dataset_delete (slug : String) : List DeleteEvent :=
  [.purgeDataDispatch slug, .catalogDelete slug]

/-- Method `Dataset.delete` (lines 184–192) together with the signal dispatch:
`super().delete()` fires `post_delete`, so the receiver's effects follow
the record deletion on every deletion path. -/
def Dataset.delete (d : Dataset) : List DeleteEvent :=
  (match d.current_task with
   | some t => [DeleteEvent.abortRequest t]
   | none => []) ++
  [DeleteEvent.recordDelete d.slug] ++ on_dataset_delete d.slug

/-- The documents of the two Solr collections that mention datasets:
row documents tagged with their dataset's slug, and one catalog document
per slug. -/
structure SolrState where
  dataDocs : List (String × String)
  catalogDocs : List String
deriving Repr, DecidableEq

/-- Modelled from the spec: `PurgeDataTask` (dispatched by
`on_dataset_delete`, implemented outside this module) deletes every
row-level document whose `dataset_slug` matches, and the receiver's
`solr.delete(settings.SOLR_DATASETS_CORE, 'slug:%s' % slug)` deletes the
catalog document; the other two events touch no Solr collection. -/
def applyDeleteEvent (st : SolrState) : DeleteEvent → SolrState
  | .purgeDataDispatch slug => { st with dataDocs := st.dataDocs.filter (fun p => p.1 ≠ slug) }
  | .catalogDelete slug => { st with catalogDocs := st.catalogDocs.filter (fun s => s ≠ slug) }
  | .abortRequest _ => st
  | .recordDelete _ => st

/-- A baseline record for concrete witnesses: a freshly created dataset
(no schema, no data, unlocked). -/
def baseDS : Dataset :=
  { slug := "ds", name := "Example", description := "", initial_upload := none,
    column_schema := none, sample_data := none, row_count := none,
    current_task := none, creation_date := some 0, creator := 1,
    last_modified := none, last_modification := none, last_modified_by := none,
    locked := false, locked_at := none }

/-- Sample column descriptors and records for concrete witnesses. -/
def colA : ColumnDescriptor :=
  { name := "a", type := "unicode", indexed := false, indexed_name := none,
    min := none, max := none }

def colB : ColumnDescriptor :=
  { name := "b", type := "unicode", indexed := false, indexed_name := none,
    min := none, max := none }

/-- A dataset whose established schema has columns `a`, `b`. -/
def dsAB : Dataset :=
  { baseDS with column_schema := some [colA, colB] }

/-- An un-imported upload with columns `a`, `c` and a resolvable task type. -/
def upAC : Upload :=
  { id := 1, imported := false, columns := ["a", "c"], guessed_types := [],
    sample_data := [], task_type := some "t" }

/-- Collaborator calls that all succeed. -/
def envOK : TaskEnv :=
  { createTask := .ok 1, save := .ok (), applyAsync := .ok () }

/-! ## Claims -/

/-- C1: For every dataset and every call to `lock()`: if the re-read
persisted record shows the dataset already locked, `lock` fails with
`DatasetLocked` and writes nothing; otherwise it writes `locked = true`
with the fresh token, and the call succeeds exactly when the token read
back by the second re-read equals the token just written, failing with
`DatasetLocked` whenever it differs. -/
theorem claim_C1_lock_protocol (before : LockView) (fresh : Nat)
    (reread : LockView) :
    (before.locked = true →
      Dataset.lock before fresh reread = (.error .datasetLocked, [])) ∧
    (before.locked = false →
      (Dataset.lock before fresh reread).2 =
        [{ locked := true, locked_at := some fresh }] ∧
      ((Dataset.lock before fresh reread).1 = .ok () ↔
        reread.locked_at = some fresh) ∧
      (reread.locked_at ≠ some fresh →
        (Dataset.lock before fresh reread).1 = .error .datasetLocked)) := by
  unfold Dataset.lock
  constructor
  · intro h
    simp [h]
  · intro h
    by_cases hr : reread.locked_at = some fresh
    · simp [h, hr]
    · simp [h, hr]

theorem claim_C1_lock_protocol_witness :
    (Dataset.lock ⟨false, none⟩ 9 ⟨true, some 9⟩).1 = .ok () ∧
    Dataset.lock ⟨false, none⟩ 9 ⟨true, some 4⟩ =
      (.error .datasetLocked, [⟨true, some 9⟩]) ∧
    Dataset.lock ⟨true, some 3⟩ 9 ⟨true, some 3⟩ = (.error .datasetLocked, []) := by
  refine ⟨?_, ?_, ?_⟩
  · exact ((claim_C1_lock_protocol ⟨false, none⟩ 9 ⟨true, some 9⟩).2 rfl).2.1.mpr rfl
  · have h := (claim_C1_lock_protocol ⟨false, none⟩ 9 ⟨true, some 4⟩).2 rfl
    have h1 := h.1
    have h2 := h.2.2 (by decide)
    cases hval : Dataset.lock ⟨false, none⟩ 9 ⟨true, some 4⟩
    rw [hval] at h1 h2
    simp only at h1 h2
    rw [h1, h2]
  · exact (claim_C1_lock_protocol ⟨true, some 3⟩ 9 ⟨true, some 3⟩).1 rfl

/-- C2 (counterexample to the claim; the code is the slip): `unlock()`
does set `locked = false`, persists, is idempotent and raises no error,
but it does **not** clear the lock token: line 141 assigns `None` to
`lock_id`, which is not a field of the model (the token field is
`locked_at`), so a locked dataset with token `5` still has
`locked_at = some 5` after `unlock()`. -/
theorem claim_C2_unlock_token_not_cleared :
    ({ baseDS with locked := true, locked_at := some 5 }).unlock.locked = false ∧
    ({ baseDS with locked := true, locked_at := some 5 }).unlock.locked_at = some 5 ∧
    ({ baseDS with locked := true, locked_at := some 5 }).unlock.locked_at ≠ none ∧
    ({ baseDS with locked := true, locked_at := some 5 }).unlock.unlock =
      ({ baseDS with locked := true, locked_at := some 5 }).unlock := by
  refine ⟨rfl, rfl, by decide, rfl⟩

/-- C3: `_generate_typed_column_names` preserves the schema length and
order; a descriptor not flagged `indexed` gets `indexed_name = None`; an
indexed descriptor gets `column_<type>_<slug>` de-duplicated against the
names assigned so far (numeric suffix `2, 3, …`), never colliding with an
earlier assignment; and the `indexed_name`s of the indexed columns are
pairwise distinct.  Determinism is immediate: the embedding is a pure
function of the ordered schema. -/
theorem claim_C3_generate_typed_column_names (schema : List ColumnDescriptor) :
    (generate_typed_column_names schema).length = schema.length ∧
    (∀ (i : Nat) (c0 : ColumnDescriptor), schema[i]? = some c0 → c0.indexed = false →
      ∃ r, (generate_typed_column_names schema)[i]? = some r ∧
        r.indexed_name = none) ∧
    (∀ (i : Nat) (c0 : ColumnDescriptor), schema[i]? = some c0 → c0.indexed = true →
      ∃ r, (generate_typed_column_names schema)[i]? = some r ∧
        r.indexed_name = some (dedupName (baseName c0)
          (assignedNames ((generate_typed_column_names schema).take i))) ∧
        r.indexed_name ∉ assignedNames ((generate_typed_column_names schema).take i) ∧
        (r.indexed_name = some (baseName c0) ∨
          ∃ k, 2 ≤ k ∧ r.indexed_name = some (baseName c0 ++ pyNatRepr k))) ∧
    (((generate_typed_column_names schema).map (·.indexed_name)).filterMap id).Nodup := by
  refine ⟨generateAux_length [] schema, ?_, ?_, ?_⟩
  · intro i c0 h hidx
    have := generateAux_get? schema [] i c0 h
    rw [generate_typed_column_names]
    exact ⟨_, this, by simp [hidx]⟩
  · intro i c0 h hidx
    have hg := generateAux_get? schema [] i c0 h
    rw [generate_typed_column_names]
    refine ⟨_, hg, ?_, ?_, ?_⟩
    · simp [hidx, generate_typed_column_names]
    · simp only [hidx, if_true, List.nil_append, generate_typed_column_names]
      exact dedupName_not_mem _ _
    · simp only [hidx, if_true, List.nil_append]
      rcases dedupName_shape (baseName c0)
          (assignedNames ((generateAux [] schema).take i)) with hsh | ⟨k, hk, hsh⟩
      · exact Or.inl (by rw [hsh])
      · exact Or.inr ⟨k, hk, by rw [hsh]⟩
  · have := generateAux_nodup schema [] (by simp)
    simpa [generate_typed_column_names, assignedNames] using this

theorem claim_C3_generate_typed_column_names_witness :
    ∃ r, (generate_typed_column_names
        [{ name := "Foo Bar", type := "unicode", indexed := true,
           indexed_name := none, min := none, max := none },
         { name := "Foo-Bar", type := "unicode", indexed := true,
           indexed_name := none, min := none, max := none }])[1]? = some r ∧
      r.indexed_name = some "column_unicode_foo_bar2" := by
  obtain ⟨r, hr, hname, -, -⟩ :=
    (claim_C3_generate_typed_column_names
      [{ name := "Foo Bar", type := "unicode", indexed := true,
         indexed_name := none, min := none, max := none },
       { name := "Foo-Bar", type := "unicode", indexed := true,
         indexed_name := none, min := none, max := none }]).2.2.1 1
      { name := "Foo-Bar", type := "unicode", indexed := true,
        indexed_name := none, min := none, max := none } rfl rfl
  refine ⟨r, hr, ?_⟩
  rw [hname]
  rfl

/-- The only errors escaping the task-creation/dispatch tail come from the
collaborator calls themselves. -/
theorem taskDispatch_error_external (d : Dataset) (env : TaskEnv)
    (e : PandaError) (dm : Dataset)
    (h : taskDispatch d env = .error (e, dm)) : ∃ n, e = .external n := by
  unfold taskDispatch at h
  cases hc : env.createTask with
  | error n =>
    rw [hc] at h
    injection h with h'
    exact ⟨n, congrArg Prod.fst h'.symm⟩
  | ok tid =>
    rw [hc] at h
    cases hs : env.save with
    | error n =>
      rw [hs] at h
      injection h with h'
      exact ⟨n, congrArg Prod.fst h'.symm⟩
    | ok u =>
      rw [hs] at h
      cases ha : env.applyAsync with
      | error n =>
        rw [ha] at h
        injection h with h'
        exact ⟨n, congrArg Prod.fst h'.symm⟩
      | ok v => rw [ha] at h; exact absurd h (by simp)

/-- Same, through the sample-data/initial-upload steps of `import_data`. -/
theorem importTail_error_external (d : Dataset) (u : Upload) (env : TaskEnv)
    (e : PandaError) (dm : Dataset)
    (h : importBody.importTail d u env = .error (e, dm)) :
    ∃ n, e = .external n := by
  unfold importBody.importTail at h
  exact taskDispatch_error_external _ env e dm h

/-- C4: For each lock-guarded operation (`import_data`, `reindex_data`,
`export_data`): when the lock is acquired (the dataset was unlocked) and
the guarded body raises any error, the operation re-raises that same error
(nothing is suppressed) and the persisted record has been unlocked first. -/
theorem claim_C4_lock_released_on_failure (d : Dataset) (fresh : Nat)
    (u : Upload) (tc : List Bool) (ct : List String) (env : TaskEnv)
    (hd : d.locked = false) :
    (∀ e dm, importBody { d with locked := true, locked_at := some fresh } u env =
        .error (e, dm) →
      d.import_data fresh u env = (some e, dm.unlock) ∧
      dm.unlock.locked = false) ∧
    (∀ e dm, reindexBody { d with locked := true, locked_at := some fresh } tc ct env =
        .error (e, dm) →
      d.reindex_data fresh tc ct env = (some e, dm.unlock) ∧
      dm.unlock.locked = false) ∧
    (∀ e dm, taskDispatch { d with locked := true, locked_at := some fresh } env =
        .error (e, dm) →
      d.export_data fresh env = (some e, dm.unlock) ∧
      dm.unlock.locked = false) := by
  refine ⟨?_, ?_, ?_⟩
  · intro e dm hb
    refine ⟨?_, rfl⟩
    rw [Dataset.import_data, if_neg (by simp [hd]), hb]
  · intro e dm hb
    refine ⟨?_, rfl⟩
    rw [Dataset.reindex_data, if_neg (by simp [hd]), hb]
  · intro e dm hb
    refine ⟨?_, rfl⟩
    rw [Dataset.export_data, if_neg (by simp [hd]), hb]

theorem claim_C4_lock_released_on_failure_witness :
    (baseDS.import_data 5
        { id := 1, imported := true, columns := [], guessed_types := [],
          sample_data := [], task_type := some "t" }
        { createTask := .ok 1, save := .ok (), applyAsync := .ok () }).1 =
      some PandaError.alreadyImported ∧
    (baseDS.import_data 5
        { id := 1, imported := true, columns := [], guessed_types := [],
          sample_data := [], task_type := some "t" }
        { createTask := .ok 1, save := .ok (), applyAsync := .ok () }).2.locked = false ∧
    (baseDS.export_data 5
        { createTask := .error 3, save := .ok (), applyAsync := .ok () }).1 =
      some (PandaError.external 3) ∧
    (baseDS.export_data 5
        { createTask := .error 3, save := .ok (), applyAsync := .ok () }).2.locked = false := by
  have h := claim_C4_lock_released_on_failure baseDS 5
    { id := 1, imported := true, columns := [], guessed_types := [],
      sample_data := [], task_type := some "t" } [] []
    { createTask := .ok 1, save := .ok (), applyAsync := .ok () } rfl
  have h1 := h.1 PandaError.alreadyImported
    { baseDS with locked := true, locked_at := some 5 } rfl
  have h2 := claim_C4_lock_released_on_failure baseDS 5
    { id := 1, imported := true, columns := [], guessed_types := [],
      sample_data := [], task_type := some "t" } [] []
    { createTask := .error 3, save := .ok (), applyAsync := .ok () } rfl
  have h3 := h2.2.2 (PandaError.external 3)
    { baseDS with locked := true, locked_at := some 5 } rfl
  refine ⟨?_, ?_, ?_, ?_⟩
  · rw [h1.1]
  · rw [h1.1]; exact h1.2
  · rw [h3.1]
  · rw [h3.1]; exact h3.2

/-- C5: On a dataset with an existing (non-empty) `column_schema`, an
importData call whose upload passes the earlier guards (not already
imported, task type resolvable) fails with `SchemaMismatch` exactly when
the ordered column names of the upload
ordered column names differ from the schema's ordered names; on that
failure the dataset is left unlocked (and otherwise unchanged apart from
the transient lock token). -/
theorem claim_C5_import_schema_mismatch (d : Dataset) (fresh : Nat)
    (u : Upload) (env : TaskEnv) (c0 : ColumnDescriptor)
    (cs : List ColumnDescriptor) (hd : d.locked = false)
    (hsch : d.column_schema = some (c0 :: cs)) (him : u.imported = false)
    (htt : u.task_type ≠ none) :
    ((d.import_data fresh u env).1 = some .schemaMismatch ↔
      u.columns ≠ (c0 :: cs).map (·.name)) ∧
    (u.columns ≠ (c0 :: cs).map (·.name) →
      (d.import_data fresh u env).2 =
        { d with locked := false, locked_at := some fresh } ∧
      (d.import_data fresh u env).2.locked = false) := by
  have hschL : ({ d with locked := true, locked_at := some fresh } : Dataset).column_schema
      = some (c0 :: cs) := hsch
  by_cases hcol : u.columns = (c0 :: cs).map (·.name)
  · have hcol' : u.columns = c0.name :: List.map (fun x => x.name) cs := by
      simpa using hcol
    have hbody : importBody { d with locked := true, locked_at := some fresh } u env =
        importBody.importTail { d with locked := true, locked_at := some fresh } u env := by
      rw [importBody, if_neg (by simp [him]), if_neg htt, hschL]
      simp [hcol']
    rw [Dataset.import_data, if_neg (by simp [hd]), hbody]
    constructor
    · constructor
      · intro habs
        cases ht : importBody.importTail { d with locked := true, locked_at := some fresh } u env with
        | ok d2 => rw [ht] at habs; simp at habs
        | error p =>
          rw [ht] at habs
          obtain ⟨e, dm⟩ := p
          simp only at habs
          obtain ⟨n, rfl⟩ := importTail_error_external _ u env e dm ht
          simp at habs
      · intro habs; exact absurd hcol habs
    · intro habs; exact absurd hcol habs
  · have hcol' : ¬u.columns = c0.name :: List.map (fun x => x.name) cs := by
      simpa using hcol
    have hbody : importBody { d with locked := true, locked_at := some fresh } u env =
        .error (.schemaMismatch, { d with locked := true, locked_at := some fresh }) := by
      rw [importBody, if_neg (by simp [him]), if_neg htt, hschL]
      simp [hcol']
    rw [Dataset.import_data, if_neg (by simp [hd]), hbody]
    refine ⟨⟨fun _ => hcol, fun _ => rfl⟩, fun _ => ⟨rfl, rfl⟩⟩

theorem claim_C5_import_schema_mismatch_witness :
    (dsAB.import_data 5 upAC envOK).1 = some PandaError.schemaMismatch ∧
    (dsAB.import_data 5 upAC envOK).2.locked = false := by
  have h := claim_C5_import_schema_mismatch dsAB 5 upAC envOK colA [colB]
    rfl rfl rfl (by decide)
  exact ⟨h.1.mpr (by decide), (h.2 (by decide)).2⟩

/-- Overwriting an existing key leaves the document count unchanged. -/
theorem RowStore.count_upsert_hasKey (s : RowStore) (k : String) (v : Row)
    (h : s.hasKey k = true) : (s.upsert k v).count = s.count := by
  rw [RowStore.upsert]
  rw [RowStore.hasKey] at h
  rw [if_pos h]
  simp [RowStore.count]

/-- Adding a new key grows the document count by one. -/
theorem RowStore.count_upsert_new (s : RowStore) (k : String) (v : Row)
    (h : s.hasKey k = false) : (s.upsert k v).count = s.count + 1 := by
  rw [RowStore.upsert]
  rw [RowStore.hasKey] at h
  rw [if_neg (by simp [h])]
  simp [RowStore.count]

/-- An empty store holds no key. -/
theorem RowStore.hasKey_of_count_zero (s : RowStore) (k : String)
    (h : s.count = 0) : s.hasKey k = false := by
  rw [RowStore.count] at h
  have : s.rows = [] := by
    cases hr : s.rows with
    | nil => rfl
    | cons a l =>
      rw [hr] at h
      simp at h
      omega
  rw [RowStore.hasKey, this]
  rfl

/-- C6: `add_row` with an `external_id` that already keys a stored row
(an overwrite) leaves `row_count` unchanged and records
`last_modification = "1 row updated"`; with a new `external_id` it
increments `row_count` by one and records `"1 row added"`.  The hypothesis
is the data-model invariant that `row_count` (with the null sentinel read
as 0) agrees with the index engine's count. -/
theorem claim_C6_add_row (d : Dataset) (s : RowStore) (user now : Nat)
    (data : Row) (k : String) (hacc : d.row_count.getD 0 = s.count) :
    (s.hasKey k = true →
      (d.add_row s user now data k).1.row_count = d.row_count ∧
      (d.add_row s user now data k).1.last_modification = some "1 row updated") ∧
    (s.hasKey k = false →
      (d.add_row s user now data k).1.row_count =
        some (d.row_count.getD 0 + 1) ∧
      (d.add_row s user now data k).1.last_modification = some "1 row added") := by
  constructor
  · intro hk
    have hcnt : (s.upsert k data).count = s.count :=
      RowStore.count_upsert_hasKey s k data hk
    have hrc : d.row_count = some s.count := by
      cases hd : d.row_count with
      | none =>
        rw [hd] at hacc
        simp only [Option.getD_none] at hacc
        have := RowStore.hasKey_of_count_zero s k hacc.symm
        rw [this] at hk
        exact absurd hk (by simp)
      | some v =>
        rw [hd] at hacc
        simp only [Option.getD_some] at hacc
        rw [hacc]
    have hadded : (s.upsert k data).count - d.row_count.getD 0 = 0 := by
      rw [hcnt, hacc]
      omega
    constructor
    · show some (s.upsert k data).count = d.row_count
      rw [hcnt, hrc]
    · show some ("1 row " ++
        (if (s.upsert k data).count - d.row_count.getD 0 ≠ 0 then "added"
         else "updated")) = some "1 row updated"
      rw [hadded]
      simp
  · intro hk
    have hcnt : (s.upsert k data).count = s.count + 1 :=
      RowStore.count_upsert_new s k data hk
    have hadded : (s.upsert k data).count - d.row_count.getD 0 = 1 := by
      rw [hcnt, ← hacc]
      omega
    constructor
    · show some (s.upsert k data).count = some (d.row_count.getD 0 + 1)
      rw [hcnt, ← hacc]
    · show some ("1 row " ++
        (if (s.upsert k data).count - d.row_count.getD 0 ≠ 0 then "added"
         else "updated")) = some "1 row added"
      rw [hadded]
      simp

theorem claim_C6_add_row_witness :
    (({ baseDS with row_count := some 1 } : Dataset).add_row
        ⟨[("x", ["1"])]⟩ 1 2 ["2"] "x").1.row_count = some 1 ∧
    (({ baseDS with row_count := some 1 } : Dataset).add_row
        ⟨[("x", ["1"])]⟩ 1 2 ["2"] "x").1.last_modification =
      some "1 row updated" ∧
    (({ baseDS with row_count := some 1 } : Dataset).add_row
        ⟨[("x", ["1"])]⟩ 1 2 ["2"] "y").1.row_count = some 2 ∧
    (({ baseDS with row_count := some 1 } : Dataset).add_row
        ⟨[("x", ["1"])]⟩ 1 2 ["2"] "y").1.last_modification =
      some "1 row added" := by
  have h := claim_C6_add_row { baseDS with row_count := some 1 }
    ⟨[("x", ["1"])]⟩ 1 2 ["2"] "x" rfl
  have h2 := claim_C6_add_row { baseDS with row_count := some 1 }
    ⟨[("x", ["1"])]⟩ 1 2 ["2"] "y" rfl
  obtain ⟨ha, hb⟩ := h.1 rfl
  obtain ⟨hc, hd⟩ := h2.2 rfl
  exact ⟨ha, hb, hc, hd⟩

/-- C7: `add_many_rows` stores the post-batch engine count in
`row_count`; the modification summary is rendered from
`added = new count − prior count (absent read as 0)` and
`updated = batch size − added`: the combined message when both are
nonzero, `"<a> rows added"` when only `added` is nonzero, and
`"<u> rows updated"` otherwise. -/
theorem claim_C7_add_many_rows (d : Dataset) (s : RowStore) (user now : Nat)
    (batch : List (Row × String)) :
    (d.add_many_rows s user now batch).1.row_count =
      some ((d.add_many_rows s user now batch).2.1.count) ∧
    (d.add_many_rows s user now batch).1.last_modification = some
      (let added : Int :=
        (d.add_many_rows s user now batch).2.1.count - d.row_count.getD 0
       let updated : Int := (batch.length : Int) - added
       if added ≠ 0 ∧ updated ≠ 0 then
         pyIntRepr added ++ " rows added and " ++ pyIntRepr updated ++ " updated"
       else if added ≠ 0 then pyIntRepr added ++ " rows added"
       else pyIntRepr updated ++ " rows updated") :=
  ⟨rfl, rfl⟩

theorem claim_C7_add_many_rows_witness :
    (({ baseDS with row_count := some 2 } : Dataset).add_many_rows
        ⟨[("a", ["1"]), ("b", ["2"])]⟩ 1 2
        [(["3"], "c"), (["4"], "d"), (["5"], "e"), (["6"], "a"), (["7"], "b")]).1.row_count =
      some 5 ∧
    (({ baseDS with row_count := some 2 } : Dataset).add_many_rows
        ⟨[("a", ["1"]), ("b", ["2"])]⟩ 1 2
        [(["3"], "c"), (["4"], "d"), (["5"], "e"), (["6"], "a"), (["7"], "b")]).1.last_modification =
      some "3 rows added and 2 updated" := by
  have h := claim_C7_add_many_rows { baseDS with row_count := some 2 }
    ⟨[("a", ["1"]), ("b", ["2"])]⟩ 1 2
    [(["3"], "c"), (["4"], "d"), (["5"], "e"), (["6"], "a"), (["7"], "b")]
  refine ⟨?_, ?_⟩
  · rw [h.1]
    rfl
  · rw [h.2]
    rfl

/-- C8: On a dataset with a known prior `row_count = n`,
`delete_all_rows` issues exactly one Solr call — the slug-scoped delete —
never queries the engine, empties the store, sets `row_count` to 0
directly, and records `last_modification = "All <n> rows deleted"`. -/
theorem claim_C8_delete_all_rows (d : Dataset) (s : RowStore) (user now : Nat)
    (n : Int) (h : d.row_count = some n) :
    (d.delete_all_rows s user now).1 = none ∧
    (d.delete_all_rows s user now).2.1.row_count = some 0 ∧
    (d.delete_all_rows s user now).2.1.last_modification =
      some ("All " ++ pyIntRepr n ++ " rows deleted") ∧
    (d.delete_all_rows s user now).2.2.1 = ⟨[]⟩ ∧
    (d.delete_all_rows s user now).2.2.2 =
      [SolrCall.del dataCore ("dataset_slug:" ++ d.slug) true] ∧
    ∀ core q, SolrCall.query core q ∉ (d.delete_all_rows s user now).2.2.2 := by
  rw [Dataset.delete_all_rows, h]
  refine ⟨rfl, rfl, rfl, rfl, rfl, ?_⟩
  intro core q hmem
  simp at hmem

theorem claim_C8_delete_all_rows_witness :
    (({ baseDS with row_count := some 42 } : Dataset).delete_all_rows
        ⟨[("a", ["1"])]⟩ 1 2).1 = none ∧
    (({ baseDS with row_count := some 42 } : Dataset).delete_all_rows
        ⟨[("a", ["1"])]⟩ 1 2).2.1.row_count = some 0 ∧
    (({ baseDS with row_count := some 42 } : Dataset).delete_all_rows
        ⟨[("a", ["1"])]⟩ 1 2).2.1.last_modification =
      some "All 42 rows deleted" := by
  have h := claim_C8_delete_all_rows { baseDS with row_count := some 42 }
    ⟨[("a", ["1"])]⟩ 1 2 42 rfl
  refine ⟨h.1, h.2.1, ?_⟩
  rw [h.2.2.1]
  rfl

/-- Filtering for a value after having filtered it away yields nothing. -/
theorem filter_ne_then_eq {α : Type} (l : List α) (f : α → String) (t : String) :
    (l.filter (fun a => f a ≠ t)).filter (fun a => f a = t) = [] := by
  induction l with
  | nil => rfl
  | cons a rest ih =>
    by_cases hfa : f a = t
    · simp [List.filter_cons, hfa, ih]
    · simp [List.filter_cons, hfa, ih]

/-- C9: Dataset deletion: when a current task exists, the abort
request precedes the record deletion; the events following the record
deletion are exactly the `post_delete` receiver `on_dataset_delete` (the
purge is a reaction to the deletion, not an orchestrator step); and after
the flow runs, neither the row-level nor the catalog-level collection
holds any document for the dataset's slug. -/
theorem claim_C9_delete_purges_both_cores (d : Dataset) (st : SolrState) :
    (∃ pre, d.delete = pre ++ [DeleteEvent.recordDelete d.slug] ++
        on_dataset_delete d.slug ∧
      (∀ t, d.current_task = some t → pre = [DeleteEvent.abortRequest t]) ∧
      (d.current_task = none → pre = [])) ∧
    on_dataset_delete d.slug =
      [DeleteEvent.purgeDataDispatch d.slug, DeleteEvent.catalogDelete d.slug] ∧
    ((d.delete.foldl applyDeleteEvent st).dataDocs.filter
        (fun p => p.1 = d.slug) = [] ∧
     (d.delete.foldl applyDeleteEvent st).catalogDocs.filter
        (fun x => x = d.slug) = []) := by
  have htrace : ∀ pre0, ((pre0 ++ [DeleteEvent.recordDelete d.slug] ++
      on_dataset_delete d.slug).foldl applyDeleteEvent st) =
        applyDeleteEvent (applyDeleteEvent ((pre0 ++
          [DeleteEvent.recordDelete d.slug]).foldl applyDeleteEvent st)
            (DeleteEvent.purgeDataDispatch d.slug)) (DeleteEvent.catalogDelete d.slug) := by
    intro pre0
    rw [on_dataset_delete, List.foldl_append]
    rfl
  refine ⟨?_, rfl, ?_⟩
  · cases ht : d.current_task with
    | some t =>
      refine ⟨[DeleteEvent.abortRequest t], ?_, fun t' ht' => ?_, fun hn => ?_⟩
      · rw [Dataset.delete, ht]
      · injection ht' with h'
        rw [h']
      · exact Option.noConfusion hn
    | none =>
      refine ⟨[], ?_, fun t' ht' => ?_, fun _ => rfl⟩
      · rw [Dataset.delete, ht]
      · exact Option.noConfusion ht'
  · have hshape : d.delete = (match d.current_task with
        | some t => [DeleteEvent.abortRequest t]
        | none => []) ++ [DeleteEvent.recordDelete d.slug] ++
          on_dataset_delete d.slug := rfl
    rw [hshape, htrace]
    cases ht : d.current_task with
    | some t =>
      constructor
      · exact filter_ne_then_eq _ _ _
      · exact filter_ne_then_eq _ _ _
    | none =>
      constructor
      · exact filter_ne_then_eq _ _ _
      · exact filter_ne_then_eq _ _ _

theorem claim_C9_delete_purges_both_cores_witness :
    ({ baseDS with current_task := some 7 } : Dataset).delete =
      [DeleteEvent.abortRequest 7, DeleteEvent.recordDelete "ds",
       DeleteEvent.purgeDataDispatch "ds", DeleteEvent.catalogDelete "ds"] ∧
    ((({ baseDS with current_task := some 7 } : Dataset).delete.foldl
        applyDeleteEvent ⟨[("ds", "r1"), ("other", "r2")], ["ds", "other"]⟩).dataDocs.filter
          (fun p => p.1 = "ds") = []) ∧
    ((({ baseDS with current_task := some 7 } : Dataset).delete.foldl
        applyDeleteEvent ⟨[("ds", "r1"), ("other", "r2")], ["ds", "other"]⟩).catalogDocs.filter
          (fun x => x = "ds") = []) := by
  have h := claim_C9_delete_purges_both_cores
    { baseDS with current_task := some 7 }
    ⟨[("ds", "r1"), ("other", "r2")], ["ds", "other"]⟩
  obtain ⟨⟨pre, htr, habort, -⟩, -, hdocs, hcat⟩ := h
  refine ⟨?_, hdocs, hcat⟩
  rw [htr, habort 7 rfl]
  rfl

/-- C10: `delete_all_rows` on a dataset whose `row_count` is the null
"unknown" sentinel raises (`'All %i rows deleted' % None` is a
`TypeError`) instead of completing, and persists nothing: the operation
requires a non-null prior `row_count`. -/
theorem claim_C10_delete_all_rows_requires_count (d : Dataset) (s : RowStore)
    (user now : Nat) (h : d.row_count = none) :
    (d.delete_all_rows s user now).1 =
      some (.typeError "%d format: a number is required, not NoneType") ∧
    (d.delete_all_rows s user now).2.1 = d := by
  rw [Dataset.delete_all_rows, h]
  exact ⟨rfl, rfl⟩

theorem claim_C10_delete_all_rows_requires_count_witness :
    (baseDS.delete_all_rows ⟨[("a", ["1"])]⟩ 1 2).1 =
      some (PandaError.typeError "%d format: a number is required, not NoneType") ∧
    (baseDS.delete_all_rows ⟨[("a", ["1"])]⟩ 1 2).2.1 = baseDS :=
  claim_C10_delete_all_rows_requires_count baseDS ⟨[("a", ["1"])]⟩ 1 2 rfl

end Panda
